import Mathlib

/-!
Verification of the request dispatch and response-shaping layer of the
playwright MCP server: the response envelope builder
(`src/tools/common/types.ts`), the configuration resolver (`src/config.ts`)
and the startup diagnostics (`src/index.ts`), embedded shallowly.
Strings are modelled as lists of characters; the JavaScript values produced
by JSON decoding are modelled by an inductive `JSValue` with JavaScript
truthiness; the library JSON decoder itself is an abstract parameter
(`decodeJson`), `none` standing for a thrown exception.
-/

abbrev Str := List Char

/-- Constant `MAX_RESPONSE_LENGTH` from `src/tools/common/types.ts`. -/
def MAX_RESPONSE_LENGTH : Int := 20000

/-- JavaScript `s.slice(0, stop)` on a string: a negative `stop` counts from
the end (clamped at 0), a nonnegative one is clamped at the length. -/
def jsSliceTo (s : Str) (stop : Int) : Str :=
  let stopIdx : Int := if stop < 0 then max ((s.length : Int) + stop) 0
    else min stop (s.length : Int)
  s.take stopIdx.toNat

/-- The fixed truncation marker appended by `truncateText`. -/
def truncMarker : Str :=
  "\n[Output truncated due to size limits - exceeded 20000 characters]".data

/-- Function `truncateText` from `src/tools/common/types.ts`: clamp the requested
length at `MAX_RESPONSE_LENGTH`, return the text unchanged when it fits,
otherwise slice and append the marker. -/
def truncateText (text : Str) (maxLength : Int := MAX_RESPONSE_LENGTH) : Str :=
  let effectiveMaxLength := min maxLength MAX_RESPONSE_LENGTH
  if (text.length : Int) ≤ effectiveMaxLength then text
  else jsSliceTo text effectiveMaxLength ++ truncMarker

/-- One content block of a tool response: a text payload or an image payload. -/
inductive ContentBlock where
  | text (text : Str)
  | image (data : Str)
deriving DecidableEq

/-- Structure `ToolResponse` from `src/tools/common/types.ts`. -/
structure ToolResponse where
  content : List ContentBlock
  isError : Bool
deriving DecidableEq

/-- Length contributed by one block to the text payload total. -/
def ContentBlock.textLength : ContentBlock → Nat
  | .text t => t.length
  | .image _ => 0

/-- Sum of the lengths of all text payloads of a response. -/
def ToolResponse.textTotal (r : ToolResponse) : Nat :=
  (r.content.map ContentBlock.textLength).sum

/-- Function `createErrorResponse` from `src/tools/common/types.ts`. -/
def createErrorResponse (message : Str) : ToolResponse :=
  { content := [ContentBlock.text (truncateText message)], isError := true }

/-- The argument of `createSuccessResponse`: `string | string[]`. -/
inductive StrOrList where
  | one (s : Str)
  | many (xs : List Str)

/-- JavaScript `messages.join('\n')`. -/
def joinNewline (messages : List Str) : Str :=
  List.intercalate ['\n'] messages

/-- Function `createSuccessResponse` from `src/tools/common/types.ts`: wrap a single
string into a list, join with newlines, truncate. -/
def createSuccessResponse (message : StrOrList) : ToolResponse :=
  let messages := match message with
    | .many xs => xs
    | .one s => [s]
  let combinedText := joinNewline messages
  { content := [ContentBlock.text (truncateText combinedText)], isError := false }

theorem truncMarker_length : truncMarker.length = 66 := by decide

example : truncateText "ab".data 5 = "ab".data := by decide

example : (truncateText "abcdef".data 3).length = 69 := by decide

/-! Configuration resolver, from `src/config.ts`:
headless mode from the `--headless` CLI flag and the `PLAYWRIGHT_HEADLESS`
environment variable, proxy from the `--proxy` CLI flag and the
`PLAYWRIGHT_PROXY` environment variable, CLI taking precedence. -/

/-- A JavaScript value as produced by JSON decoding or property access;
`notDefined` models the JavaScript undefined value. -/
inductive JSValue where
  | notDefined
  | null
  | bool (b : Bool)
  | num (n : Int)
  | str (s : Str)
  | obj (fields : List (Str × JSValue))

/-- JavaScript truthiness of a value. -/
def JSValue.truthy : JSValue → Bool
  | .notDefined => false
  | .null => false
  | .bool b => b
  | .num n => n != 0
  | .str s => !s.isEmpty
  | .obj _ => true

/-- JavaScript property access `v[key]` on a decoded value: field lookup on
an object, `undefined` otherwise. -/
def JSValue.getProp (v : JSValue) (key : Str) : JSValue :=
  match v with
  | .obj fields => (fields.lookup key).getD .notDefined
  | _ => .notDefined

/-- Constant `GLOBAL_HEADLESS_MODE` from `src/config.ts`:
`args.includes('--headless') || process.env.PLAYWRIGHT_HEADLESS === 'true'`.
`envHeadless` is `none` when the variable is not set. -/
def GLOBAL_HEADLESS_MODE (args : List Str) (envHeadless : Option Str) : Bool :=
  args.contains "--headless".data || envHeadless == some "true".data

/-- Constant `CLI_HEADLESS_MODE` from `src/config.ts`. -/
def CLI_HEADLESS_MODE (args : List Str) : Bool :=
  args.contains "--headless".data

/-- Constant `ENV_HEADLESS_MODE` from `src/config.ts`. -/
def ENV_HEADLESS_MODE (envHeadless : Option Str) : Bool :=
  envHeadless == some "true".data

/-- The `cliProxyConfig` computation of `src/config.ts`: find `--proxy` in
the argument list, take the following argument when it exists and is truthy
(non-empty), decode it; a decoding exception is logged and leaves `null`.
Returns the resulting value together with the error log lines. -/
def cliProxyParse (args : List Str) (decodeJson : Str → Option JSValue) :
    JSValue × List Str :=
  match args.findIdx? (fun a => a == "--proxy".data) with
  | none => (.null, [])
  | some i =>
    match args[i + 1]? with
    | none => (.null, [])
    | some a =>
      if a.isEmpty then (.null, [])
      else
        match decodeJson a with
        | some v => (v, [])
        | none => (.null, ["Failed to parse --proxy argument:".data])

/-- The `envProxyConfig` computation of `src/config.ts`: when
`PLAYWRIGHT_PROXY` is set and truthy (non-empty), decode it; a decoding
exception is logged and leaves `null`. -/
def envProxyParse (envProxy : Option Str) (decodeJson : Str → Option JSValue) :
    JSValue × List Str :=
  match envProxy with
  | none => (.null, [])
  | some s =>
    if s.isEmpty then (.null, [])
    else
      match decodeJson s with
      | some v => (v, [])
      | none => (.null, ["Failed to parse PLAYWRIGHT_PROXY:".data])

/-- Constant `GLOBAL_PROXY_CONFIG = cliProxyConfig || envProxyConfig` from
`src/config.ts` (JavaScript `||`: the left value when truthy, else the
right value). -/
def GLOBAL_PROXY_CONFIG (args : List Str) (envProxy : Option Str)
    (decodeJson : Str → Option JSValue) : JSValue :=
  let cli := (cliProxyParse args decodeJson).1
  let env := (envProxyParse envProxy decodeJson).1
  if cli.truthy then cli else env

/-- Constant `CLI_PROXY_MODE = !!cliProxyConfig` from `src/config.ts`. -/
def CLI_PROXY_MODE (args : List Str) (decodeJson : Str → Option JSValue) : Bool :=
  (cliProxyParse args decodeJson).1.truthy

/-- Constant `ENV_PROXY_MODE = !!envProxyConfig && !cliProxyConfig` from
`src/config.ts`. -/
def ENV_PROXY_MODE (args : List Str) (envProxy : Option Str)
    (decodeJson : Str → Option JSValue) : Bool :=
  (envProxyParse envProxy decodeJson).1.truthy
    && !(cliProxyParse args decodeJson).1.truthy

/-- The error log lines emitted while resolving the proxy configuration. -/
def configLogs (args : List Str) (envProxy : Option Str)
    (decodeJson : Str → Option JSValue) : List Str :=
  (cliProxyParse args decodeJson).2 ++ (envProxyParse envProxy decodeJson).2

/-! Startup diagnostics, from `src/index.ts`. -/

/-- JavaScript string interpolation of a value. -/
def JSValue.display : JSValue → Str
  | .notDefined => "undefined".data
  | .null => "null".data
  | .bool true => "true".data
  | .bool false => "false".data
  | .num n => (toString n).data
  | .str s => s
  | .obj _ => "[object Object]".data

/-- The source text used in the headless startup line of `src/index.ts`. -/
def headlessSource (args : List Str) : Str :=
  if CLI_HEADLESS_MODE args then "--headless flag".data
  else "PLAYWRIGHT_HEADLESS environment variable".data

/-- The source text used in the proxy startup line of `src/index.ts`. -/
def proxySource (args : List Str) (decodeJson : Str → Option JSValue) : Str :=
  if CLI_PROXY_MODE args decodeJson then "--proxy flag".data
  else "PLAYWRIGHT_PROXY environment variable".data

/-- The proxy startup diagnostic line of `src/index.ts`, built from the
resolved proxy configuration `cfg` and the source text: server address,
an authenticated marker exactly when `username` is truthy, the bypass
list exactly when `bypass` is truthy — the password is never read. -/
def proxyLogLine (cfg : JSValue) (source : Str) : Str :=
  let authInfo := if (cfg.getProp "username".data).truthy
    then " (authenticated)".data else []
  let bypassInfo := if (cfg.getProp "bypass".data).truthy
    then " (bypass: ".data ++ (cfg.getProp "bypass".data).display ++ ")".data
    else []
  "Playwright MCP Server starting with proxy: ".data
    ++ (cfg.getProp "server".data).display ++ authInfo ++ bypassInfo
    ++ " (".data ++ source ++ ")".data

/-- A concrete stand-in for the JSON decoder, used to instantiate the
abstract `decodeJson` parameter on concrete inputs: two recognised
well-formed proxy strings, everything else a decoding failure. -/
def sampleDecode (s : Str) : Option JSValue :=
  if s == "cliproxy".data then
    some (.obj [("server".data, .str "http://cli.example:1".data)])
  else if s == "envproxy".data then
    some (.obj [("server".data, .str "http://env.example:2".data)])
  else none

/-! Helper lemmas about `truncateText`. -/

theorem truncateText_of_le {text : Str} {L : Int}
    (h : (text.length : Int) ≤ min L MAX_RESPONSE_LENGTH) :
    truncateText text L = text := by
  unfold truncateText
  simp [h]

theorem truncateText_length_le (text : Str) (L : Int) (hL : 0 ≤ L) :
    (truncateText text L).length ≤ 20000 + truncMarker.length := by
  unfold truncateText
  by_cases h : (text.length : Int) ≤ min L MAX_RESPONSE_LENGTH
  · simp only [h, if_true]
    have h2 : (text.length : Int) ≤ 20000 :=
      le_trans h (by simp [MAX_RESPONSE_LENGTH])
    have h3 : text.length ≤ 20000 := by exact_mod_cast h2
    omega
  · simp only [h, if_false]
    rw [List.length_append]
    have hnn : 0 ≤ min L MAX_RESPONSE_LENGTH := by
      simp [MAX_RESPONSE_LENGTH]
      omega
    have hstep : (jsSliceTo text (min L MAX_RESPONSE_LENGTH)).length ≤ 20000 := by
      unfold jsSliceTo
      simp only [not_lt.mpr hnn, if_false, List.length_take]
      have hmin : (min (min L MAX_RESPONSE_LENGTH) (text.length : Int)).toNat ≤ 20000 := by
        have : min L MAX_RESPONSE_LENGTH ≤ 20000 := by simp [MAX_RESPONSE_LENGTH]
        omega
      omega
    omega


/-- C1 counterexample: on a 20001-character message the error response's
text payload is 20066 characters long — the marker is appended after the
cut at 20000, so the 20000-character cap is exceeded. -/
theorem hard_cap_cex :
    20000 < (createErrorResponse (List.replicate 20001 'a')).textTotal := by
  have hlen : (List.replicate 20001 'a').length = 20001 :=
    List.length_replicate 20001 'a'
  have hcond : ¬ (((List.replicate 20001 'a').length : Int) ≤
      min MAX_RESPONSE_LENGTH MAX_RESPONSE_LENGTH) := by
    rw [hlen]; norm_num [MAX_RESPONSE_LENGTH]
  have hslice : (jsSliceTo (List.replicate 20001 'a')
      (min MAX_RESPONSE_LENGTH MAX_RESPONSE_LENGTH)).length = 20000 := by
    simp only [jsSliceTo, MAX_RESPONSE_LENGTH, List.length_take, hlen]
    norm_num
    decide
  simp only [createErrorResponse, ToolResponse.textTotal, List.map_cons,
    List.map_nil, ContentBlock.textLength, List.sum_cons, List.sum_nil,
    Nat.add_zero]
  simp only [truncateText]
  rw [if_neg hcond, List.length_append, hslice, truncMarker_length]
  norm_num

/-- C1 (amended): for every text and every nonnegative requested length —
including the default, 0 and values far above 20000 — the text produced by
`truncateText` never exceeds 20000 characters plus the length of the fixed
truncation marker (66 characters), and hence the total text payload of any
response built by `createSuccessResponse` or `createErrorResponse` never
exceeds 20066 characters. -/
theorem hard_cap_with_marker :
    (∀ (text : Str) (L : Int), 0 ≤ L →
      (truncateText text L).length ≤ 20000 + truncMarker.length) ∧
    (∀ m : Str,
      (createErrorResponse m).textTotal ≤ 20000 + truncMarker.length) ∧
    (∀ m : StrOrList,
      (createSuccessResponse m).textTotal ≤ 20000 + truncMarker.length) := by
  refine ⟨truncateText_length_le, fun m => ?_, fun m => ?_⟩
  · simp only [createErrorResponse, ToolResponse.textTotal, List.map_cons,
      List.map_nil, ContentBlock.textLength, List.sum_cons, List.sum_nil,
      Nat.add_zero]
    exact truncateText_length_le _ _ (by norm_num [MAX_RESPONSE_LENGTH])
  · simp only [createSuccessResponse, ToolResponse.textTotal, List.map_cons,
      List.map_nil, ContentBlock.textLength, List.sum_cons, List.sum_nil,
      Nat.add_zero]
    exact truncateText_length_le _ _ (by norm_num [MAX_RESPONSE_LENGTH])

/-- Witness for the amended C1 bound at a concrete input. -/
theorem hard_cap_with_marker_witness :
    (truncateText "hello".data 3).length ≤ 20000 + truncMarker.length :=
  hard_cap_with_marker.1 "hello".data 3 (by norm_num)

/-- C2: for every requested length L with 0 ≤ L ≤ 20000 and every text
strictly longer than L, the output of `truncateText` has length exactly
L plus the marker length, and its first L characters are the first L
characters of the input. -/
theorem request_honored (text : Str) (L : Nat) (hL : L ≤ 20000)
    (hlen : L < text.length) :
    (truncateText text (L : Int)).length = L + truncMarker.length ∧
    (truncateText text (L : Int)).take L = text.take L := by
  have hmin : min (L : Int) MAX_RESPONSE_LENGTH = (L : Int) :=
    min_eq_left (by unfold MAX_RESPONSE_LENGTH; exact_mod_cast hL)
  have hcond : ¬ ((text.length : Int) ≤ min (L : Int) MAX_RESPONSE_LENGTH) := by
    rw [hmin]
    exact_mod_cast Nat.not_le.mpr hlen
  have hslice : jsSliceTo text (min (L : Int) MAX_RESPONSE_LENGTH) = text.take L := by
    rw [hmin]
    simp only [jsSliceTo]
    have h0 : ¬ ((L : Int) < 0) := by omega
    rw [if_neg h0]
    congr 1
    have hm2 : min (L : Int) (text.length : Int) = (L : Int) :=
      min_eq_left (by exact_mod_cast hlen.le)
    rw [hm2]
    omega
  have heq : truncateText text (L : Int) = text.take L ++ truncMarker := by
    simp only [truncateText]
    rw [if_neg hcond, hslice]
  constructor
  · rw [heq, List.length_append, List.length_take, Nat.min_eq_left hlen.le]
  · rw [heq]
    exact List.take_left' (by rw [List.length_take]; exact Nat.min_eq_left hlen.le)

/-- Witness for C2 at a concrete input: requested length 3 on a
6-character text. -/
theorem request_honored_witness :
    (truncateText "abcdef".data ((3 : Nat) : Int)).length = 3 + truncMarker.length ∧
    (truncateText "abcdef".data ((3 : Nat) : Int)).take 3 = "abcdef".data.take 3 :=
  request_honored "abcdef".data 3 (by norm_num) (by decide)

/-- C3: a text whose length is at most the effective limit
min(requested, 20000) is returned completely unchanged, and whenever the
output differs from the input the text's length exceeded the effective
limit. -/
theorem within_limit_unchanged :
    (∀ (text : Str) (L : Int), (text.length : Int) ≤ min L MAX_RESPONSE_LENGTH →
      truncateText text L = text) ∧
    (∀ (text : Str) (L : Int), truncateText text L ≠ text →
      min L MAX_RESPONSE_LENGTH < (text.length : Int)) := by
  refine ⟨fun text L h => truncateText_of_le h, fun text L h => ?_⟩
  by_contra hc
  exact h (truncateText_of_le (not_lt.mp hc))

/-- Witness for C3 at a concrete input: a 2-character text under the
requested limit 5 passes through unchanged. -/
theorem within_limit_unchanged_witness :
    truncateText "ab".data 5 = "ab".data :=
  within_limit_unchanged.1 "ab".data 5 (by decide)

/-- C4: configuration precedence for both cross-cutting settings. Headless:
a present CLI flag forces the resolved value regardless of the environment;
with no CLI flag the resolved value is the environment's implied value; with
neither source it is unset (false). Proxy: a present, decodable CLI value
wins over any environment value; with no CLI flag a decodable environment
value is the resolved value; with neither source the proxy is unset (null). -/
theorem config_precedence :
    (∀ (args : List Str) (envHeadless : Option Str),
      CLI_HEADLESS_MODE args = true →
      GLOBAL_HEADLESS_MODE args envHeadless = true) ∧
    (∀ (args : List Str) (envHeadless : Option Str),
      CLI_HEADLESS_MODE args = false →
      GLOBAL_HEADLESS_MODE args envHeadless = ENV_HEADLESS_MODE envHeadless) ∧
    (∀ args : List Str,
      CLI_HEADLESS_MODE args = false →
      GLOBAL_HEADLESS_MODE args none = false) ∧
    (∀ (args : List Str) (envProxy : Option Str)
      (decodeJson : Str → Option JSValue) (i : Nat) (a : Str)
      (fields : List (Str × JSValue)),
      args.findIdx? (fun x => x == "--proxy".data) = some i →
      args[i + 1]? = some a → a.isEmpty = false →
      decodeJson a = some (JSValue.obj fields) →
      GLOBAL_PROXY_CONFIG args envProxy decodeJson = JSValue.obj fields) ∧
    (∀ (args : List Str) (s : Str) (decodeJson : Str → Option JSValue)
      (v : JSValue),
      args.findIdx? (fun x => x == "--proxy".data) = none →
      s.isEmpty = false → decodeJson s = some v →
      GLOBAL_PROXY_CONFIG args (some s) decodeJson = v) ∧
    (∀ (args : List Str) (decodeJson : Str → Option JSValue),
      args.findIdx? (fun x => x == "--proxy".data) = none →
      GLOBAL_PROXY_CONFIG args none decodeJson = JSValue.null) := by
  refine ⟨?_, ?_, ?_, ?_, ?_, ?_⟩
  · intro args env h
    unfold CLI_HEADLESS_MODE at h
    unfold GLOBAL_HEADLESS_MODE
    rw [h, Bool.true_or]
  · intro args env h
    unfold CLI_HEADLESS_MODE at h
    unfold GLOBAL_HEADLESS_MODE ENV_HEADLESS_MODE
    rw [h, Bool.false_or]
  · intro args h
    unfold CLI_HEADLESS_MODE at h
    unfold GLOBAL_HEADLESS_MODE
    rw [h, Bool.false_or]
    rfl
  · intro args envProxy d i a fields hfind hnext hne hdec
    simp [GLOBAL_PROXY_CONFIG, cliProxyParse, hfind, hnext, hne, hdec,
      JSValue.truthy]
  · intro args s d v hfind hne hdec
    simp [GLOBAL_PROXY_CONFIG, cliProxyParse, envProxyParse, hfind, hne, hdec,
      JSValue.truthy]
  · intro args d hfind
    simp [GLOBAL_PROXY_CONFIG, cliProxyParse, envProxyParse, hfind,
      JSValue.truthy]

/-- Witness for C4: all six precedence cases evaluated at concrete argument
vectors and environments, with `sampleDecode` standing in for the decoder. -/
theorem config_precedence_witness :
    GLOBAL_HEADLESS_MODE ["--headless".data] (some "false".data) = true ∧
    GLOBAL_HEADLESS_MODE [] (some "true".data) =
      ENV_HEADLESS_MODE (some "true".data) ∧
    GLOBAL_HEADLESS_MODE [] none = false ∧
    GLOBAL_PROXY_CONFIG ["--proxy".data, "cliproxy".data]
      (some "envproxy".data) sampleDecode =
      JSValue.obj [("server".data, JSValue.str "http://cli.example:1".data)] ∧
    GLOBAL_PROXY_CONFIG [] (some "envproxy".data) sampleDecode =
      JSValue.obj [("server".data, JSValue.str "http://env.example:2".data)] ∧
    GLOBAL_PROXY_CONFIG [] none sampleDecode = JSValue.null :=
  ⟨config_precedence.1 ["--headless".data] (some "false".data) (by decide),
   config_precedence.2.1 [] (some "true".data) (by decide),
   config_precedence.2.2.1 [] (by decide),
   config_precedence.2.2.2.1 ["--proxy".data, "cliproxy".data]
     (some "envproxy".data) sampleDecode 0 "cliproxy".data
     [("server".data, JSValue.str "http://cli.example:1".data)]
     (by decide) (by decide) (by decide) (by rfl),
   config_precedence.2.2.2.2.1 [] "envproxy".data sampleDecode
     (JSValue.obj [("server".data, JSValue.str "http://env.example:2".data)])
     (by decide) (by decide) (by rfl),
   config_precedence.2.2.2.2.2 [] sampleDecode (by decide)⟩

/-- C5 counterexample: with the `--headless` flag on the command line and
`PLAYWRIGHT_HEADLESS=true` in the environment, headless mode resolves to
enabled while BOTH provenance flags are true at once — the claimed
mutual exclusion of the provenance flags fails for the headless setting. -/
theorem provenance_cex :
    GLOBAL_HEADLESS_MODE ["--headless".data] (some "true".data) = true ∧
    CLI_HEADLESS_MODE ["--headless".data] = true ∧
    ENV_HEADLESS_MODE (some "true".data) = true := by
  refine ⟨by decide, by decide, by decide⟩

/-- C5 (amended): for the proxy setting the two provenance flags are
mutually exclusive by construction; for the headless setting both
provenance flags can be true simultaneously, but for both settings the
source the startup diagnostic reports is the CLI flag whenever the CLI
source is present. -/
theorem provenance_amended :
    (∀ (args : List Str) (envProxy : Option Str)
      (decodeJson : Str → Option JSValue),
      ¬ (CLI_PROXY_MODE args decodeJson = true ∧
         ENV_PROXY_MODE args envProxy decodeJson = true)) ∧
    (∀ (args : List Str) (decodeJson : Str → Option JSValue),
      CLI_PROXY_MODE args decodeJson = true →
      proxySource args decodeJson = "--proxy flag".data) ∧
    (∀ args : List Str, CLI_HEADLESS_MODE args = true →
      headlessSource args = "--headless flag".data) := by
  refine ⟨?_, ?_, ?_⟩
  · rintro args envProxy d ⟨h1, h2⟩
    unfold CLI_PROXY_MODE at h1
    unfold ENV_PROXY_MODE at h2
    rw [h1] at h2
    simp at h2
  · intro args d h
    unfold proxySource
    rw [h]
    rfl
  · intro args h
    unfold headlessSource
    rw [h]
    rfl

/-- Witness for the amended C5: concrete configurations where the CLI
source is present and is the one reported. -/
theorem provenance_amended_witness :
    proxySource ["--proxy".data, "cliproxy".data] sampleDecode =
      "--proxy flag".data ∧
    headlessSource ["--headless".data] = "--headless flag".data :=
  ⟨provenance_amended.2.1 ["--proxy".data, "cliproxy".data] sampleDecode
     (by rfl),
   provenance_amended.2.2 ["--headless".data] (by decide)⟩

/-- C6: a proxy source that fails to decode is reported in the error log
and treated as unset, resolution continuing with the other source: an
undecodable environment value with no `--proxy` flag resolves the proxy
configuration to null (unset) with the failure logged, and an undecodable
CLI value falls back to the environment value when that one decodes, again
with the failure logged. -/
theorem malformed_proxy_nonfatal :
    (∀ (args : List Str) (s : Str) (decodeJson : Str → Option JSValue),
      args.findIdx? (fun x => x == "--proxy".data) = none →
      s.isEmpty = false → decodeJson s = none →
      GLOBAL_PROXY_CONFIG args (some s) decodeJson = JSValue.null ∧
      "Failed to parse PLAYWRIGHT_PROXY:".data ∈
        configLogs args (some s) decodeJson) ∧
    (∀ (args : List Str) (i : Nat) (a s : Str)
      (decodeJson : Str → Option JSValue) (v : JSValue),
      args.findIdx? (fun x => x == "--proxy".data) = some i →
      args[i + 1]? = some a → a.isEmpty = false → decodeJson a = none →
      s.isEmpty = false → decodeJson s = some v →
      GLOBAL_PROXY_CONFIG args (some s) decodeJson = v ∧
      "Failed to parse --proxy argument:".data ∈
        configLogs args (some s) decodeJson) := by
  constructor
  · intro args s d hfind hne hdec
    constructor
    · simp [GLOBAL_PROXY_CONFIG, cliProxyParse, envProxyParse, hfind, hne,
        hdec, JSValue.truthy]
    · simp [configLogs, cliProxyParse, envProxyParse, hfind, hne, hdec]
  · intro args i a s d v hfind hnext hane hadec hsne hsdec
    constructor
    · simp [GLOBAL_PROXY_CONFIG, cliProxyParse, envProxyParse, hfind, hnext,
        hane, hadec, hsne, hsdec, JSValue.truthy]
    · simp [configLogs, cliProxyParse, envProxyParse, hfind, hnext, hane,
        hadec, hsne, hsdec]

/-- Witness for C6: a garbage environment value alone resolves to unset
with the failure logged, and a garbage CLI value falls back to a decodable
environment value, also logging the failure. -/
theorem malformed_proxy_nonfatal_witness :
    (GLOBAL_PROXY_CONFIG [] (some "garbage".data) sampleDecode =
       JSValue.null ∧
     "Failed to parse PLAYWRIGHT_PROXY:".data ∈
       configLogs [] (some "garbage".data) sampleDecode) ∧
    (GLOBAL_PROXY_CONFIG ["--proxy".data, "garbage".data]
       (some "envproxy".data) sampleDecode =
       JSValue.obj [("server".data, JSValue.str "http://env.example:2".data)] ∧
     "Failed to parse --proxy argument:".data ∈
       configLogs ["--proxy".data, "garbage".data]
         (some "envproxy".data) sampleDecode) :=
  ⟨malformed_proxy_nonfatal.1 [] "garbage".data sampleDecode
     (by decide) (by decide) (by rfl),
   malformed_proxy_nonfatal.2 ["--proxy".data, "garbage".data] 0
     "garbage".data "envproxy".data sampleDecode
     (JSValue.obj [("server".data, JSValue.str "http://env.example:2".data)])
     (by decide) (by decide) (by decide) (by rfl) (by decide) (by rfl)⟩

/-- C7: `createErrorResponse` always sets `isError`, and its single text
payload is the message routed through the same truncation rule, at the
absolute default limit, that success responses use. -/
theorem error_response_spec :
    ∀ m : Str,
      (createErrorResponse m).isError = true ∧
      (createErrorResponse m).content =
        [ContentBlock.text (truncateText m MAX_RESPONSE_LENGTH)] ∧
      (createErrorResponse m).content =
        (createSuccessResponse (StrOrList.one m)).content := by
  intro m
  refine ⟨rfl, rfl, ?_⟩
  simp [createErrorResponse, createSuccessResponse, joinNewline,
    List.intercalate]

/-- C8: for every non-empty payload list the success response's single text
payload is the payloads joined, in input order, with a single newline
between consecutive payloads, passed through truncation at the absolute
default limit. -/
theorem success_join_spec :
    (∀ xs : List Str, xs ≠ [] →
      (createSuccessResponse (StrOrList.many xs)).content =
        [ContentBlock.text (truncateText (joinNewline xs) MAX_RESPONSE_LENGTH)]) ∧
    (∀ (x y : Str) (ys : List Str),
      joinNewline (x :: y :: ys) = x ++ '\n' :: joinNewline (y :: ys)) ∧
    (∀ x : Str, joinNewline [x] = x) := by
  refine ⟨fun xs _ => rfl, ?_, ?_⟩
  · intro x y ys
    simp [joinNewline, List.intercalate]
  · intro x
    simp [joinNewline, List.intercalate]

/-- Witness for C8 on a concrete two-payload list. -/
theorem success_join_spec_witness :
    (createSuccessResponse (StrOrList.many ["ab".data, "cd".data])).content =
      [ContentBlock.text
        (truncateText (joinNewline ["ab".data, "cd".data]) MAX_RESPONSE_LENGTH)] :=
  success_join_spec.1 ["ab".data, "cd".data] (by decide)

/-- C10: both builders produce exactly one content block, a text block:
`createSuccessResponse` collapses its input (single string or list) into a
single text block with `isError = false`, and `createErrorResponse`
produces a single text block with `isError = true`. -/
theorem single_text_block :
    ∀ (m : StrOrList) (e : Str),
      (createSuccessResponse m).isError = false ∧
      (createSuccessResponse m).content.length = 1 ∧
      (∃ t : Str, (createSuccessResponse m).content = [ContentBlock.text t]) ∧
      (createErrorResponse e).content.length = 1 ∧
      (∃ t : Str, (createErrorResponse e).content = [ContentBlock.text t]) := by
  intro m e
  exact ⟨rfl, rfl, ⟨_, rfl⟩, rfl, ⟨_, rfl⟩⟩

/-- A decoded proxy configuration object carrying the documented `server`,
`username` and `password` fields. -/
def proxyCfg (server username password : Str) : JSValue :=
  JSValue.obj [("server".data, JSValue.str server),
    ("username".data, JSValue.str username),
    ("password".data, JSValue.str password)]

theorem proxyLogLine_proxyCfg (server username password source : Str)
    (hu : username.isEmpty = false) :
    proxyLogLine (proxyCfg server username password) source =
      "Playwright MCP Server starting with proxy: ".data ++ server ++
        " (authenticated)".data ++ " (".data ++ source ++ ")".data := by
  have hs : (proxyCfg server username password).getProp "server".data =
      JSValue.str server := rfl
  have hun : (proxyCfg server username password).getProp "username".data =
      JSValue.str username := rfl
  have hb : (proxyCfg server username password).getProp "bypass".data =
      JSValue.notDefined := rfl
  simp [proxyLogLine, hs, hun, hb, JSValue.truthy, JSValue.display, hu]

/-- C9: the proxy startup diagnostic line for a resolved configuration
carrying a username and password mentions the proxy server address and the
authenticated marker, and is computed without reading the password value
and without reading the username value beyond its presence: replacing
either credential never changes the line, so the credentials cannot appear
in it. -/
theorem proxy_log_no_credentials
    (server username password source : Str)
    (hu : username.isEmpty = false) :
    (∃ pre post : Str,
      proxyLogLine (proxyCfg server username password) source =
        pre ++ server ++ post) ∧
    (∃ pre post : Str,
      proxyLogLine (proxyCfg server username password) source =
        pre ++ " (authenticated)".data ++ post) ∧
    (∀ password' : Str,
      proxyLogLine (proxyCfg server username password') source =
        proxyLogLine (proxyCfg server username password) source) ∧
    (∀ username' : Str, username'.isEmpty = false →
      proxyLogLine (proxyCfg server username' password) source =
        proxyLogLine (proxyCfg server username password) source) := by
  refine ⟨?_, ?_, ?_, ?_⟩
  · exact ⟨"Playwright MCP Server starting with proxy: ".data,
      " (authenticated)".data ++ " (".data ++ source ++ ")".data,
      by rw [proxyLogLine_proxyCfg server username password source hu]
         simp [List.append_assoc]⟩
  · exact ⟨"Playwright MCP Server starting with proxy: ".data ++ server,
      " (".data ++ source ++ ")".data,
      by rw [proxyLogLine_proxyCfg server username password source hu]
         simp [List.append_assoc]⟩
  · intro password'
    rw [proxyLogLine_proxyCfg server username password source hu,
      proxyLogLine_proxyCfg server username password' source hu]
  · intro username' hu'
    rw [proxyLogLine_proxyCfg server username password source hu,
      proxyLogLine_proxyCfg server username' password source hu']

/-- Witness for C9 at a concrete authenticated proxy configuration. -/
theorem proxy_log_no_credentials_witness :
    (∃ pre post : Str,
      proxyLogLine (proxyCfg "http://proxy.example:8080".data "u".data
        "p".data) "PLAYWRIGHT_PROXY environment variable".data =
        pre ++ "http://proxy.example:8080".data ++ post) ∧
    (∃ pre post : Str,
      proxyLogLine (proxyCfg "http://proxy.example:8080".data "u".data
        "p".data) "PLAYWRIGHT_PROXY environment variable".data =
        pre ++ " (authenticated)".data ++ post) ∧
    (∀ password' : Str,
      proxyLogLine (proxyCfg "http://proxy.example:8080".data "u".data
        password') "PLAYWRIGHT_PROXY environment variable".data =
        proxyLogLine (proxyCfg "http://proxy.example:8080".data "u".data
          "p".data) "PLAYWRIGHT_PROXY environment variable".data) ∧
    (∀ username' : Str, username'.isEmpty = false →
      proxyLogLine (proxyCfg "http://proxy.example:8080".data username'
        "p".data) "PLAYWRIGHT_PROXY environment variable".data =
        proxyLogLine (proxyCfg "http://proxy.example:8080".data "u".data
          "p".data) "PLAYWRIGHT_PROXY environment variable".data) :=
  proxy_log_no_credentials "http://proxy.example:8080".data "u".data
    "p".data "PLAYWRIGHT_PROXY environment variable".data (by decide)
